import Mathlib

/-!
Verification development for the IoTDB operator DataNode reconciler
(`iotdb-operator/internal/controller/datanode_controller.go`).

The Go source is shallowly embedded: the pure construction functions
(`constructStateFulSetForDataNode`, `constructServiceForDataNode`,
`constructPVCForDataNode`) become Lean functions over explicit record
types mirroring the Kubernetes API structs the controller touches, and
the `Reconcile` pass becomes an explicit state transformer over a
cluster-state record, emitting the list of create/update API calls it
performs.  Go maps (`Spec.Envs`, `Spec.Service.Ports`) are embedded as
association lists whose stored order is the order the pass at hand
observes from `range`; Go leaves that iteration order unspecified (and
randomizes it), so two passes over one Specification may observe any
two permutations of the entries — `SameSpecification` relates such
representations, and order-sensitive properties are settled against
permuted representations.  Optimistic-concurrency resource versions are
embedded as natural numbers held next to each stored object.
-/

namespace IoTDBOperator

/-- Modelled from the spec: the process-wide data-node name constant
`DataNodeName` is defined outside the reconciler source file; the chart
values name the data-node tier `datanode`.  Only its constancy matters
to the claims below. -/
def DataNodeName : String := "datanode"

/-- Modelled from the spec: the process-wide config-node name constant
`ConfigNodeName`, defined outside the reconciler source file. -/
def ConfigNodeName : String := "confignode"

/-- Modelled from the spec: `strutil.ToKebabCase` (defined outside the
reconciler source file) turns a snake_case identifier into kebab-case. -/
def toKebabCase (s : String) : String :=
  String.mk (s.data.map (fun c => if c = '_' then '-' else c))

/-- An owner reference stamped by `SetControllerReference`: an
identity+kind pair stored on the child object. -/
structure OwnerRef where
  kind : String
  name : String
  ns : String
deriving DecidableEq, Inhabited

structure ObjectMeta where
  name : String
  ns : String
  labels : List (String × String)
  ownerRefs : List OwnerRef := []
deriving DecidableEq, Inhabited

structure EnvVar where
  name : String
  value : String := ""
  valueFromFieldPath : Option String := none
deriving DecidableEq, Inhabited

structure ServicePort where
  name : String
  port : Int
  nodePort : Int := 0
  targetPort : Int
deriving DecidableEq, Inhabited

structure ServiceSpec where
  clusterIP : String := ""
  ports : List ServicePort
  selector : List (String × String)
  type : String := ""
deriving DecidableEq, Inhabited

structure Service where
  meta : ObjectMeta
  spec : ServiceSpec
deriving DecidableEq, Inhabited

structure ContainerPort where
  name : String
  containerPort : Int
deriving DecidableEq, Inhabited

structure ResourceList where
  cpu : String
  memory : String
deriving DecidableEq, Inhabited

structure VolumeMount where
  name : String
  mountPath : String
  subPath : String
deriving DecidableEq, Inhabited

structure Container where
  name : String
  image : String
  imagePullPolicy : String
  ports : List ContainerPort
  limits : ResourceList
  requests : ResourceList
  env : List EnvVar
  volumeMounts : List VolumeMount
deriving DecidableEq, Inhabited

/-- The persistent-volume-claim spec is copied verbatim from the
DataNode spec; its particular fields are never inspected by the
controller. -/
structure PVCSpec where
  accessModes : List String := []
  storageClassName : String := ""
  storageSize : String := ""
deriving DecidableEq, Inhabited

structure PersistentVolumeClaim where
  meta : ObjectMeta
  spec : PVCSpec
deriving DecidableEq, Inhabited

/-- The `appsv1.StatefulSetSpec` fields the controller writes, plus
`podManagementPolicy`: a genuine field of the Kubernetes struct that the
composite literal in the source leaves at its zero value `""`. -/
structure StatefulSetSpec where
  replicas : Int
  selector : List (String × String)
  serviceName : String
  templateLabels : List (String × String)
  antiAffinityTerms : List (List (String × String) × String)
  containers : List Container
  volumeClaimTemplates : List PersistentVolumeClaim
  podManagementPolicy : String := ""
deriving DecidableEq, Inhabited

structure StatefulSet where
  meta : ObjectMeta
  spec : StatefulSetSpec
deriving DecidableEq, Inhabited

/-- The optional exposure descriptor `dataNode.Spec.Service`: a service
type plus a named-port → node-port map (embedded as an association
list). -/
structure ServiceDescriptor where
  type : String
  ports : List (String × Int)
deriving DecidableEq, Inhabited

structure DataNodeSpec where
  replicas : Int
  image : String
  limits : ResourceList
  envs : Option (List (String × String)) := none
  service : Option ServiceDescriptor := none
  volumeClaimTemplate : PVCSpec
deriving DecidableEq, Inhabited

structure DataNode where
  name : String
  ns : String
  spec : DataNodeSpec
deriving DecidableEq, Inhabited

/-- Two DataNode values represent the same Specification when they
differ at most in the stored order of the environment map's and the
exposure-port map's entries.  Go leaves `range` iteration order over a
map unspecified (and randomizes it), so two reconciliation passes over
one Specification may observe any two such representations. -/
def SameSpecification (dn1 dn2 : DataNode) : Prop :=
  dn1.name = dn2.name ∧ dn1.ns = dn2.ns ∧
  dn1.spec.replicas = dn2.spec.replicas ∧
  dn1.spec.image = dn2.spec.image ∧
  dn1.spec.limits = dn2.spec.limits ∧
  dn1.spec.volumeClaimTemplate = dn2.spec.volumeClaimTemplate ∧
  (match dn1.spec.envs, dn2.spec.envs with
   | none, none => True
   | some l1, some l2 => l1.Perm l2
   | _, _ => False) ∧
  (match dn1.spec.service, dn2.spec.service with
   | none, none => True
   | some s1, some s2 => s1.type = s2.type ∧ s1.ports.Perm s2.ports
   | _, _ => False)

/-- The runtime scheme; `SetControllerReference` needs the owner's type
registered in it.  Only the DataNode registration is relevant here. -/
structure Scheme where
  registersDataNode : Bool
deriving DecidableEq, Inhabited

/-- `controllerutil.SetControllerReference(dataNode, obj, scheme)`:
fails iff the owner's type is absent from the scheme; otherwise yields
the owner reference stamped onto the object. -/
def setControllerReference (owner : DataNode) (scheme : Scheme) : Option OwnerRef :=
  if scheme.registersDataNode then
    some { kind := "DataNode", name := owner.name, ns := owner.ns }
  else none

def stampService (s : Service) (ref : OwnerRef) : Service :=
  { s with meta := { s.meta with ownerRefs := [ref] } }

def stampStatefulSet (s : StatefulSet) (ref : OwnerRef) : StatefulSet :=
  { s with meta := { s.meta with ownerRefs := [ref] } }

def stampPVC (p : PersistentVolumeClaim) (ref : OwnerRef) : PersistentVolumeClaim :=
  { p with meta := { p.meta with ownerRefs := [ref] } }

/-- The key → canonical-value rewrite chain applied to user environment
entries (lines 133-147 of the source). -/
def canonEnvValue (key value : String) : String :=
  if key = "dn_rpc_port" then "6667"
  else if key = "dn_internal_port" then "10730"
  else if key = "dn_mpp_data_exchange_port" then "10740"
  else if key = "dn_schema_region_consensus_port" then "10750"
  else if key = "dn_data_region_consensus_port" then "10760"
  else if key = "dn_metric_prometheus_reporter_port" then "9092"
  else if key = "rest_service_port" then "18080"
  else value

/-- The user-supplied environment entries after port canonicalization,
in the order this pass's `range` iteration over the env map yields them
— embedded as the stored list order.  Go leaves that order unspecified,
so another pass over the same Specification may observe any permutation
of the stored list (`SameSpecification`); `[]` when the mapping is
absent. -/
def userEnvVars (dn : DataNode) : List EnvVar :=
  match dn.spec.envs with
  | none => []
  | some envs => envs.map (fun kv => { name := kv.1, value := canonEnvValue kv.1 kv.2 })

def podNameVar : EnvVar :=
  { name := "POD_NAME", value := "", valueFromFieldPath := some "metadata.name" }

def seedConfigNodeVar (dn : DataNode) : EnvVar :=
  { name := "dn_seed_config_node",
    value := ConfigNodeName ++ "-0." ++ ConfigNodeName ++ "-headless." ++ dn.ns
      ++ ".svc.cluster.local:10710" }

def internalAddressVar (dn : DataNode) : EnvVar :=
  { name := "dn_internal_address",
    value := "$(POD_NAME)." ++ DataNodeName ++ "-headless." ++ dn.ns ++ ".svc.cluster.local" }

/-- The three engine-injected environment entries, in source order. -/
def injectedEnvVars (dn : DataNode) : List EnvVar :=
  [podNameVar, seedConfigNodeVar dn, internalAddressVar dn]

def dataNodeEnvVars (dn : DataNode) : List EnvVar :=
  userEnvVars dn ++ injectedEnvVars dn

def constructPVCForDataNode (scheme : Scheme) (dn : DataNode) :
    Option PersistentVolumeClaim :=
  let pvc : PersistentVolumeClaim :=
    { meta := { name := DataNodeName, ns := dn.ns, labels := [("app", DataNodeName)] },
      spec := dn.spec.volumeClaimTemplate }
  match setControllerReference dn scheme with
  | none => none
  | some ref => some (stampPVC pvc ref)

def dataNodeContainerPorts : List ContainerPort :=
  [ { name := "rpc-port", containerPort := 6667 },
    { name := "internal-port", containerPort := 10730 },
    { name := "exchange-port", containerPort := 10740 },
    { name := "schema-port", containerPort := 10750 },
    { name := "data-port", containerPort := 10760 },
    { name := "rest-port", containerPort := 18080 },
    { name := "metric-port", containerPort := 9092 } ]

def dataNodeVolumeMounts (pvcName : String) : List VolumeMount :=
  [ { name := pvcName, mountPath := "/iotdb/data", subPath := "data" },
    { name := pvcName, mountPath := "/iotdb/logs", subPath := "logs" },
    { name := pvcName, mountPath := "/iotdb/ext", subPath := "ext" },
    { name := pvcName, mountPath := "/iotdb/.env", subPath := ".env" },
    { name := pvcName, mountPath := "/iotdb/activation", subPath := "activation" } ]

/-- The StatefulSet composite literal (lines 168-235 of the source),
before ownership stamping. -/
def stateFulSetBody (dn : DataNode) (pvcTemplate : PersistentVolumeClaim) : StatefulSet :=
  { meta := { name := DataNodeName, ns := dn.ns, labels := [("app", DataNodeName)] },
    spec :=
      { replicas := dn.spec.replicas,
        selector := [("app", DataNodeName)],
        serviceName := DataNodeName ++ "-headless",
        templateLabels := [("app", DataNodeName)],
        antiAffinityTerms := [([("app", DataNodeName)], "kubernetes.io/hostname")],
        containers :=
          [ { name := DataNodeName,
              image := dn.spec.image,
              imagePullPolicy := "IfNotPresent",
              ports := dataNodeContainerPorts,
              limits := { cpu := dn.spec.limits.cpu, memory := dn.spec.limits.memory },
              requests := { cpu := dn.spec.limits.cpu, memory := dn.spec.limits.memory },
              env := dataNodeEnvVars dn,
              volumeMounts := dataNodeVolumeMounts pvcTemplate.meta.name } ],
        volumeClaimTemplates := [pvcTemplate] } }

/-- `constructStateFulSetForDataNode`; a `nil` result of the Go function
(and the nil dereference of a failed PVC construction) is embedded as
`none`. -/
def constructStateFulSetForDataNode (scheme : Scheme) (dn : DataNode) :
    Option StatefulSet :=
  match constructPVCForDataNode scheme dn with
  | none => none
  | some pvcTemplate =>
    match setControllerReference dn scheme with
    | none => none
    | some ref => some (stampStatefulSet (stateFulSetBody dn pvcTemplate) ref)

/-- The headless-service port list exactly as written in the source
(lines 252-288), including the `dn-mpp-data-exchange-port` entry whose
target port the source sets to 10750. -/
def headlessServicePorts : List ServicePort :=
  [ { name := "dn-internal-port", port := 10730, targetPort := 10730 },
    { name := "dn-mpp-data-exchange-port", port := 10740, targetPort := 10750 },
    { name := "dn-data-region-consensus-port", port := 10760, targetPort := 10760 },
    { name := "dn-schema-region-consensus-port", port := 10750, targetPort := 10750 },
    { name := "dn-rpc-port", port := 6667, targetPort := 6667 },
    { name := "rest-service-port", port := 18080, targetPort := 18080 },
    { name := "dn-metric-prometheus-reporter-port", port := 9092, targetPort := 9092 } ]

def headlessServiceBody (dn : DataNode) : Service :=
  { meta := { name := DataNodeName ++ "-headless", ns := dn.ns,
              labels := [("app", DataNodeName)] },
    spec :=
      { clusterIP := "None",
        ports := headlessServicePorts,
        selector := [("app", DataNodeName)],
        type := "" } }

/-- The body of the exposure-port loop (lines 304-334): only the three
listed keys produce an exposed port; the user value survives as the
node port and the internal port is replaced by the canonical value. -/
def exposurePortEntry (kv : String × Int) : Option ServicePort :=
  if kv.1 = "dn_metric_prometheus_reporter_port" then
    some { name := toKebabCase kv.1, port := 9092, nodePort := kv.2, targetPort := 9092 }
  else if kv.1 = "rest_service_port" then
    some { name := toKebabCase kv.1, port := 18080, nodePort := kv.2, targetPort := 18080 }
  else if kv.1 = "dn_rpc_port" then
    some { name := toKebabCase kv.1, port := 6667, nodePort := kv.2, targetPort := 6667 }
  else none

/-- The exposure service body; its port list keeps the order this
pass's `range` iteration over the exposure-port map yields (the stored
list order).  Go leaves that order unspecified, so another pass over
the same Specification may build the kept ports in a different order
(`SameSpecification`), which the order-sensitive service diff then
treats as a divergence. -/
def nodePortServiceBody (dn : DataNode) (sd : ServiceDescriptor) : Service :=
  { meta := { name := DataNodeName, ns := dn.ns, labels := [("app", DataNodeName)] },
    spec :=
      { clusterIP := "",
        ports := sd.ports.filterMap exposurePortEntry,
        selector := [("app", DataNodeName)],
        type := sd.type } }

/-- `constructServiceForDataNode`: always the headless service; a second
node-port service only when the exposure descriptor is present and its
port loop kept at least one entry.  Both stampings use the same scheme,
so a single owner-reference computation covers them. -/
def constructServiceForDataNode (scheme : Scheme) (dn : DataNode) :
    Option (List Service) :=
  match setControllerReference dn scheme with
  | none => none
  | some ref =>
    let services := [stampService (headlessServiceBody dn) ref]
    match dn.spec.service with
    | none => some services
    | some sd =>
      if 0 < sd.ports.length then
        if 0 < (sd.ports.filterMap exposurePortEntry).length then
          some (services ++ [stampService (nodePortServiceBody dn sd) ref])
        else some services
      else some services

/-- The spec's Port Registry: the seven logical port names with their
canonical numeric values, as hard-coded across the source. -/
def portRegistry : List (String × Int) :=
  [ ("dn_rpc_port", 6667),
    ("dn_internal_port", 10730),
    ("dn_mpp_data_exchange_port", 10740),
    ("dn_schema_region_consensus_port", 10750),
    ("dn_data_region_consensus_port", 10760),
    ("dn_metric_prometheus_reporter_port", 9092),
    ("rest_service_port", 18080) ]

def registryPort (n : String) : Option Int :=
  match portRegistry.find? (fun p => p.1 == n) with
  | some p => some p.2
  | none => none

/-!
The convergence engine.  One `Reconcile` pass reads and writes a
`ClusterState`: the services and the StatefulSet stored by the cluster
API in the DataNode's namespace, each paired with its resource version
(the optimistic-concurrency token, embedded as a `Nat` the API bumps on
every write).  The pass additionally emits the list of create/update
calls it performed.
-/

structure LiveService where
  svc : Service
  rv : Nat
deriving DecidableEq, Inhabited

structure LiveStatefulSet where
  sts : StatefulSet
  rv : Nat
deriving DecidableEq, Inhabited

structure ClusterState where
  services : List (String × LiveService)
  workload : Option LiveStatefulSet
deriving DecidableEq, Inhabited

def emptyCluster : ClusterState := { services := [], workload := none }

inductive ApiCall where
  | createService : Service → ApiCall
  | updateService : Service → Nat → ApiCall
  | createWorkload : StatefulSet → ApiCall
  | updateWorkload : StatefulSet → Nat → ApiCall
deriving DecidableEq, Inhabited

/-- `r.Get` on a service name: first stored binding wins, so a new
binding prepended by `putService` shadows any older one. -/
def lookupService (cs : ClusterState) (n : String) : Option LiveService :=
  match cs.services.find? (fun p => p.1 == n) with
  | some p => some p.2
  | none => none

def putService (cs : ClusterState) (ls : LiveService) : ClusterState :=
  { cs with services := (ls.svc.meta.name, ls) :: cs.services }

/-- The per-service body of the `Reconcile` loop (lines 72-91): create
when absent; when present compare the stored `Spec` against the desired
`Spec` with `reflect.DeepEqual` and update (carrying the stored resource
version) iff they differ. -/
def convergeService (cs : ClusterState) (desired : Service) :
    ClusterState × List ApiCall :=
  match lookupService cs desired.meta.name with
  | none =>
    (putService cs { svc := desired, rv := 0 }, [ApiCall.createService desired])
  | some existing =>
    if existing.svc.spec = desired.spec then (cs, [])
    else
      (putService cs { svc := desired, rv := existing.rv + 1 },
       [ApiCall.updateService desired existing.rv])

def convergeServices : ClusterState → List Service → ClusterState × List ApiCall
  | cs, [] => (cs, [])
  | cs, d :: rest =>
    let step := convergeService cs d
    let restResult := convergeServices step.1 rest
    (restResult.1, step.2 ++ restResult.2)

/-- Modelled from the spec: the bounded optimistic-concurrency retry
budget of `retry.RetryOnConflict(retry.DefaultRetry, ...)`; client-go's
default backoff performs five attempts. -/
def defaultRetrySteps : Nat := 5

/-- A concurrent writer interleaved between the engine's fetch and its
update: it replaces the stored workload spec and the API bumps the
resource version, invalidating the token the engine fetched. -/
def interfere (cs : ClusterState) (w : Option StatefulSetSpec) : ClusterState :=
  match w with
  | none => cs
  | some wspec =>
    match cs.workload with
    | none => cs
    | some current =>
      { cs with
        workload := some { sts := { current.sts with spec := wspec },
                           rv := current.rv + 1 } }

inductive AttemptResult where
  | ok : ClusterState → List ApiCall → AttemptResult
  | conflict : ClusterState → List ApiCall → AttemptResult
  | fatal : AttemptResult
deriving DecidableEq, Inhabited

def attemptCalls : AttemptResult → List ApiCall
  | AttemptResult.ok _ calls => calls
  | AttemptResult.conflict _ calls => calls
  | AttemptResult.fatal => []

/-- One execution of the closure passed to `RetryOnConflict`
(lines 94-113): fetch the live StatefulSet, create the constructed one
when absent, otherwise compare specs and update with the fetched
resource version; the update is rejected as a Conflict when a concurrent
write `w` landed in between.  A `nil` result of the construction (and
the nil dereference that would follow it in the source) is `fatal`. -/
def workloadAttempt (scheme : Scheme) (dn : DataNode) (cs : ClusterState)
    (w : Option StatefulSetSpec) : AttemptResult :=
  match constructStateFulSetForDataNode scheme dn with
  | none => AttemptResult.fatal
  | some desired =>
    match cs.workload with
    | none =>
      AttemptResult.ok { cs with workload := some { sts := desired, rv := 0 } }
        [ApiCall.createWorkload desired]
    | some current =>
      let csMid := interfere cs w
      if current.sts.spec = desired.spec then AttemptResult.ok csMid []
      else
        match csMid.workload with
        | none => AttemptResult.fatal
        | some stored =>
          if stored.rv = current.rv then
            AttemptResult.ok
              { csMid with workload := some { sts := desired, rv := stored.rv + 1 } }
              [ApiCall.updateWorkload desired current.rv]
          else
            AttemptResult.conflict csMid [ApiCall.updateWorkload desired current.rv]

/-- `retry.RetryOnConflict`: re-run the whole fetch-compare-update
closure on Conflict up to the budget, then surface the error (the `Bool`
reports success).  The list `ws` schedules one potential concurrent
write per attempt. -/
def convergeWorkload (scheme : Scheme) (dn : DataNode) :
    Nat → List (Option StatefulSetSpec) → ClusterState →
    Option (ClusterState × List ApiCall × Bool)
  | 0, _, cs => some (cs, [], false)
  | budget + 1, ws, cs =>
    match workloadAttempt scheme dn cs (ws.headD none) with
    | AttemptResult.fatal => none
    | AttemptResult.ok cs2 calls => some (cs2, calls, true)
    | AttemptResult.conflict cs2 calls =>
      match convergeWorkload scheme dn budget ws.tail cs2 with
      | none => none
      | some (cs3, calls2, flag) => some (cs3, calls ++ calls2, flag)

/-- The whole `Reconcile` pass (lines 54-121), for a DataNode that
exists: build and converge the services, then converge the StatefulSet
inside the bounded conflict-retry loop.  The final `Bool` is the pass's
success report; a failed pass stops where the source returns the
error. -/
def Reconcile (scheme : Scheme) (dn : DataNode) (ws : List (Option StatefulSetSpec))
    (cs : ClusterState) : ClusterState × List ApiCall × Bool :=
  match constructServiceForDataNode scheme dn with
  | none => (cs, [], false)
  | some services =>
    let svcStep := convergeServices cs services
    match convergeWorkload scheme dn defaultRetrySteps ws svcStep.1 with
    | none => (svcStep.1, svcStep.2, false)
    | some (cs2, calls2, flag) => (cs2, svcStep.2 ++ calls2, flag)

/-- `n` consecutive interference-free reconciliation passes; the `Bool`
is the conjunction of the per-pass success reports. -/
def runPasses (scheme : Scheme) (dn : DataNode) :
    Nat → ClusterState → ClusterState × Bool
  | 0, cs => (cs, true)
  | n + 1, cs =>
    let pass := Reconcile scheme dn [] cs
    let rest := runPasses scheme dn n pass.1
    (rest.1, pass.2.2 && rest.2)

/-! Concrete sample inputs used by the witnesses and counterexamples. -/

def okScheme : Scheme := { registersDataNode := true }

def badScheme : Scheme := { registersDataNode := false }

def samplePVCSpec : PVCSpec :=
  { accessModes := ["ReadWriteOnce"], storageClassName := "local-storage",
    storageSize := "200Gi" }

def sampleDataNode : DataNode :=
  { name := "my-datanode", ns := "iotdb-ns",
    spec :=
      { replicas := 3, image := "apache/iotdb:latest",
        limits := { cpu := "8000m", memory := "16Gi" },
        envs := some [("dn_rpc_port", "9999"), ("custom_key", "custom_value")],
        service := some { type := "NodePort",
                          ports := [("dn_rpc_port", 30001), ("unknown_port", 31000)] },
        volumeClaimTemplate := samplePVCSpec } }

def noEnvDataNode : DataNode :=
  { sampleDataNode with
    spec := { sampleDataNode.spec with envs := none } }

def sampleStatefulSet : StatefulSet :=
  (constructStateFulSetForDataNode okScheme sampleDataNode).getD default

def noEnvStatefulSet : StatefulSet :=
  (constructStateFulSetForDataNode okScheme noEnvDataNode).getD default

def sampleServices : List Service :=
  (constructServiceForDataNode okScheme sampleDataNode).getD []

def sampleConverged : ClusterState :=
  (runPasses okScheme sampleDataNode 1 emptyCluster).1

example : sampleServices.length = 2 := by decide
example : (constructServiceForDataNode okScheme sampleDataNode).isSome = true := by decide
example : sampleStatefulSet.spec.containers.length = 1 := by decide

/-! Helper lemmas about the store and the convergence steps. -/

def specAt (cs : ClusterState) (n : String) : Option ServiceSpec :=
  (lookupService cs n).map (fun l => l.svc.spec)

lemma lookupService_put_self (cs : ClusterState) (ls : LiveService) :
    lookupService (putService cs ls) ls.svc.meta.name = some ls := by
  simp [lookupService, putService, List.find?]

lemma lookupService_put_other (cs : ClusterState) (ls : LiveService) (m : String)
    (h : m ≠ ls.svc.meta.name) :
    lookupService (putService cs ls) m = lookupService cs m := by
  have hb : (ls.svc.meta.name == m) = false := by
    simp [Ne.symm h]
  simp [lookupService, putService, List.find?, hb]

lemma lookupService_services_eq (cs1 cs2 : ClusterState) (n : String)
    (h : cs1.services = cs2.services) :
    lookupService cs1 n = lookupService cs2 n := by
  simp [lookupService, h]

lemma convergeService_specAt_self (cs : ClusterState) (d : Service) :
    specAt (convergeService cs d).1 d.meta.name = some d.spec := by
  unfold convergeService
  cases hl : lookupService cs d.meta.name with
  | none =>
    have h := lookupService_put_self cs { svc := d, rv := 0 }
    simp [specAt, h]
  | some ex =>
    by_cases hs : ex.svc.spec = d.spec
    · simp [hs, specAt, hl]
    · have h := lookupService_put_self cs { svc := d, rv := ex.rv + 1 }
      simp [hs, specAt, h]

lemma convergeService_specAt_other (cs : ClusterState) (d : Service) (m : String)
    (h : m ≠ d.meta.name) :
    specAt (convergeService cs d).1 m = specAt cs m := by
  unfold convergeService
  cases hl : lookupService cs d.meta.name with
  | none =>
    have h2 := lookupService_put_other cs { svc := d, rv := 0 } m h
    simp [specAt, h2]
  | some ex =>
    by_cases hs : ex.svc.spec = d.spec
    · simp [hs]
    · have h2 := lookupService_put_other cs { svc := d, rv := ex.rv + 1 } m h
      simp [hs, specAt, h2]

lemma convergeService_workload (cs : ClusterState) (d : Service) :
    (convergeService cs d).1.workload = cs.workload := by
  unfold convergeService
  cases hl : lookupService cs d.meta.name with
  | none => simp [putService]
  | some ex =>
    by_cases hs : ex.svc.spec = d.spec
    · simp [hs]
    · simp [hs, putService]

lemma convergeService_fixed (cs : ClusterState) (d : Service)
    (h : specAt cs d.meta.name = some d.spec) :
    convergeService cs d = (cs, []) := by
  unfold convergeService
  cases hl : lookupService cs d.meta.name with
  | none => simp [specAt, hl] at h
  | some ex =>
    have : ex.svc.spec = d.spec := by
      simpa [specAt, hl] using h
    simp [this]

lemma convergeService_calls (cs : ClusterState) (d : Service) :
    ∀ c ∈ (convergeService cs d).2,
      c = ApiCall.createService d ∨ ∃ n, c = ApiCall.updateService d n := by
  unfold convergeService
  cases hl : lookupService cs d.meta.name with
  | none => simp
  | some ex =>
    by_cases hs : ex.svc.spec = d.spec
    · simp [hs]
    · simp [hs]

lemma convergeServices_calls (l : List Service) :
    ∀ cs, ∀ c ∈ (convergeServices cs l).2,
      ∃ d ∈ l, c = ApiCall.createService d ∨ ∃ n, c = ApiCall.updateService d n := by
  induction l with
  | nil => intro cs c hc; simp [convergeServices] at hc
  | cons d rest ih =>
    intro cs c hc
    simp only [convergeServices, List.mem_append] at hc
    rcases hc with hc | hc
    · exact ⟨d, by simp, convergeService_calls cs d c hc⟩
    · rcases ih (convergeService cs d).1 c hc with ⟨d2, hd2, hshape⟩
      exact ⟨d2, by simp [hd2], hshape⟩

lemma interfere_none (cs : ClusterState) : interfere cs none = cs := rfl

lemma convergeWorkload_run (scheme : Scheme) (dn : DataNode) (desired : StatefulSet)
    (hd : constructStateFulSetForDataNode scheme dn = some desired)
    (b : Nat) (cs : ClusterState) :
    ∃ cs2 calls, convergeWorkload scheme dn (b + 1) [] cs = some (cs2, calls, true) ∧
      cs2.services = cs.services ∧
      cs2.workload.map (fun l => l.sts.spec) = some desired.spec := by
  cases hw : cs.workload with
  | none =>
    refine ⟨{ cs with workload := some { sts := desired, rv := 0 } },
      [ApiCall.createWorkload desired], ?_, rfl, rfl⟩
    simp [convergeWorkload, workloadAttempt, hd, hw]
  | some current =>
    by_cases hs : current.sts.spec = desired.spec
    · refine ⟨cs, [], ?_, rfl, ?_⟩
      · simp [convergeWorkload, workloadAttempt, hd, hw, hs, interfere_none]
      · simp [hw, hs]
    · refine ⟨{ cs with workload := some { sts := desired, rv := current.rv + 1 } },
        [ApiCall.updateWorkload desired current.rv], ?_, rfl, rfl⟩
      simp [convergeWorkload, workloadAttempt, hd, hw, hs, interfere_none]

lemma convergeWorkload_fixed (scheme : Scheme) (dn : DataNode) (desired : StatefulSet)
    (hd : constructStateFulSetForDataNode scheme dn = some desired)
    (b : Nat) (cs : ClusterState)
    (hw : cs.workload.map (fun l => l.sts.spec) = some desired.spec) :
    convergeWorkload scheme dn (b + 1) [] cs = some (cs, [], true) := by
  cases hwl : cs.workload with
  | none => simp [hwl] at hw
  | some current =>
    have hs : current.sts.spec = desired.spec := by simpa [hwl] using hw
    simp [convergeWorkload, workloadAttempt, hd, hwl, hs, interfere_none]

lemma workloadAttempt_calls (scheme : Scheme) (dn : DataNode) (desired : StatefulSet)
    (hd : constructStateFulSetForDataNode scheme dn = some desired)
    (cs : ClusterState) (w : Option StatefulSetSpec) :
    ∀ c ∈ attemptCalls (workloadAttempt scheme dn cs w),
      c = ApiCall.createWorkload desired ∨ ∃ n, c = ApiCall.updateWorkload desired n := by
  unfold workloadAttempt
  rw [hd]
  cases hw : cs.workload with
  | none => simp [attemptCalls]
  | some current =>
    by_cases hs : current.sts.spec = desired.spec
    · simp [hs, attemptCalls]
    · cases hmid : (interfere cs w).workload with
      | none => simp [hs, hmid, attemptCalls]
      | some stored =>
        by_cases hrv : stored.rv = current.rv
        · simp [hs, hmid, hrv, attemptCalls]
        · simp [hs, hmid, hrv, attemptCalls]

lemma convergeWorkload_calls (scheme : Scheme) (dn : DataNode) (desired : StatefulSet)
    (hd : constructStateFulSetForDataNode scheme dn = some desired) :
    ∀ b ws cs cs2 calls flag,
      convergeWorkload scheme dn b ws cs = some (cs2, calls, flag) →
      ∀ c ∈ calls,
        c = ApiCall.createWorkload desired ∨ ∃ n, c = ApiCall.updateWorkload desired n := by
  intro b
  induction b with
  | zero =>
    intro ws cs cs2 calls flag h c hc
    simp [convergeWorkload] at h
    rcases h with ⟨-, h2, -⟩
    subst h2
    simp at hc
  | succ b ih =>
    intro ws cs cs2 calls flag h c hc
    unfold convergeWorkload at h
    cases ha : workloadAttempt scheme dn cs (ws.headD none) with
    | fatal => rw [ha] at h; simp at h
    | ok csA callsA =>
      rw [ha] at h
      simp at h
      rcases h with ⟨-, h2, -⟩
      subst h2
      have := workloadAttempt_calls scheme dn desired hd cs (ws.headD none) c
      rw [ha] at this
      exact this hc
    | conflict csA callsA =>
      rw [ha] at h
      simp only at h
      cases hrec : convergeWorkload scheme dn b ws.tail csA with
      | none => rw [hrec] at h; simp at h
      | some res =>
        rcases res with ⟨cs3, calls3, flag3⟩
        rw [hrec] at h
        simp at h
        rcases h with ⟨-, h2, -⟩
        subst h2
        rcases List.mem_append.mp hc with hc1 | hc2
        · have := workloadAttempt_calls scheme dn desired hd cs (ws.headD none) c
          rw [ha] at this
          exact this hc1
        · exact ih ws.tail csA cs3 calls3 flag3 hrec c hc2

/-! Shape lemmas for the service builder and the full pass. -/

lemma constructService_registers (scheme : Scheme) (dn : DataNode)
    (svcs : List Service)
    (h : constructServiceForDataNode scheme dn = some svcs) :
    scheme.registersDataNode = true := by
  by_cases hr : scheme.registersDataNode
  · exact hr
  · simp [constructServiceForDataNode, setControllerReference, hr] at h

lemma constructStateFulSet_of_registers (scheme : Scheme) (dn : DataNode)
    (h : scheme.registersDataNode = true) :
    ∃ desired, constructStateFulSetForDataNode scheme dn = some desired := by
  simp only [constructStateFulSetForDataNode, constructPVCForDataNode,
    setControllerReference, h, if_true]
  exact ⟨_, rfl⟩

lemma constructService_cases (scheme : Scheme) (dn : DataNode) (svcs : List Service)
    (h : constructServiceForDataNode scheme dn = some svcs) :
    ∃ ref, setControllerReference dn scheme = some ref ∧
      ((svcs = [stampService (headlessServiceBody dn) ref] ∧
        ∀ sd, dn.spec.service = some sd → sd.ports.filterMap exposurePortEntry = []) ∨
       (∃ sd, dn.spec.service = some sd ∧
        sd.ports.filterMap exposurePortEntry ≠ [] ∧
        svcs = [stampService (headlessServiceBody dn) ref,
                stampService (nodePortServiceBody dn sd) ref])) := by
  unfold constructServiceForDataNode at h
  cases hset : setControllerReference dn scheme with
  | none => rw [hset] at h; simp at h
  | some ref =>
    rw [hset] at h
    refine ⟨ref, rfl, ?_⟩
    cases hsd : dn.spec.service with
    | none =>
      simp only [hsd] at h
      left
      refine ⟨by simpa using h.symm, ?_⟩
      intro sd hsd2
      simp [hsd] at hsd2
    | some sd =>
      simp only [hsd] at h
      by_cases hlen : 0 < sd.ports.length
      · by_cases hkept : 0 < (sd.ports.filterMap exposurePortEntry).length
        · right
          refine ⟨sd, rfl, ?_, ?_⟩
          · intro hnil
            rw [hnil] at hkept
            simp at hkept
          · rw [if_pos hlen, if_pos hkept] at h
            simpa using h.symm
        · left
          rw [if_pos hlen, if_neg hkept] at h
          refine ⟨by simpa using h.symm, ?_⟩
          intro sd2 hsd2
          injection hsd2 with hsd3
          subst hsd3
          exact List.eq_nil_of_length_eq_zero (Nat.eq_zero_of_not_pos hkept)
      · left
        rw [if_neg hlen] at h
        refine ⟨by simpa using h.symm, ?_⟩
        intro sd2 hsd2
        injection hsd2 with hsd3
        subst hsd3
        have : sd.ports = [] :=
          List.eq_nil_of_length_eq_zero (Nat.eq_zero_of_not_pos hlen)
        simp [this]

lemma headless_name (dn : DataNode) (ref : OwnerRef) :
    (stampService (headlessServiceBody dn) ref).meta.name = DataNodeName ++ "-headless" := rfl

lemma nodePort_name (dn : DataNode) (sd : ServiceDescriptor) (ref : OwnerRef) :
    (stampService (nodePortServiceBody dn sd) ref).meta.name = DataNodeName := rfl

lemma dataNodeName_ne_headless : DataNodeName ≠ DataNodeName ++ "-headless" := by decide

lemma specAt_services_eq (cs1 cs2 : ClusterState) (n : String)
    (h : cs1.services = cs2.services) :
    specAt cs1 n = specAt cs2 n := by
  simp [specAt, lookupService_services_eq cs1 cs2 n h]

lemma convergeServices_single (cs : ClusterState) (d : Service) :
    convergeServices cs [d] = ((convergeService cs d).1, (convergeService cs d).2) := by
  simp [convergeServices]

lemma convergeServices_pair (cs : ClusterState) (d e : Service) :
    convergeServices cs [d, e] =
      ((convergeService (convergeService cs d).1 e).1,
       (convergeService cs d).2 ++ (convergeService (convergeService cs d).1 e).2) := by
  simp [convergeServices]

lemma Reconcile_establishes (scheme : Scheme) (dn : DataNode)
    (svcs : List Service) (desired : StatefulSet)
    (hs : constructServiceForDataNode scheme dn = some svcs)
    (hd : constructStateFulSetForDataNode scheme dn = some desired)
    (cs : ClusterState) :
    ∃ cs2 calls, Reconcile scheme dn [] cs = (cs2, calls, true) ∧
      (∀ d ∈ svcs, specAt cs2 d.meta.name = some d.spec) ∧
      cs2.workload.map (fun l => l.sts.spec) = some desired.spec := by
  rcases constructService_cases scheme dn svcs hs with ⟨ref, -, hcase⟩
  have hsvcfacts :
      ∀ d ∈ svcs, specAt (convergeServices cs svcs).1 d.meta.name = some d.spec := by
    rcases hcase with ⟨hsvcs, -⟩ | ⟨sd, -, -, hsvcs⟩ <;> subst hsvcs
    · intro d hd2
      rw [List.mem_singleton.mp hd2, convergeServices_single]
      exact convergeService_specAt_self cs _
    · intro d hd2
      have hne : (stampService (headlessServiceBody dn) ref).meta.name ≠
          (stampService (nodePortServiceBody dn sd) ref).meta.name := by
        rw [headless_name, nodePort_name]
        exact Ne.symm dataNodeName_ne_headless
      rcases List.mem_cons.mp hd2 with hd3 | hd3
      · rw [hd3, convergeServices_pair, convergeService_specAt_other _ _ _ hne]
        exact convergeService_specAt_self cs _
      · rw [List.mem_singleton.mp hd3, convergeServices_pair]
        exact convergeService_specAt_self _ _
  have hwlpres : (convergeServices cs svcs).1.workload = cs.workload := by
    rcases hcase with ⟨hsvcs, -⟩ | ⟨sd, -, -, hsvcs⟩ <;> subst hsvcs
    · rw [convergeServices_single]
      exact convergeService_workload cs _
    · rw [convergeServices_pair]
      rw [convergeService_workload, convergeService_workload]
  obtain ⟨cs2, calls, hcw, hservpres, hwlspec⟩ :=
    convergeWorkload_run scheme dn desired hd 4 (convergeServices cs svcs).1
  refine ⟨cs2, (convergeServices cs svcs).2 ++ calls, ?_, ?_, hwlspec⟩
  · have h5 : defaultRetrySteps = 4 + 1 := rfl
    simp only [Reconcile, hs, h5, hcw]
  · intro d hd2
    rw [specAt_services_eq cs2 (convergeServices cs svcs).1 _ hservpres]
    exact hsvcfacts d hd2

lemma Reconcile_converged (scheme : Scheme) (dn : DataNode)
    (svcs : List Service) (desired : StatefulSet)
    (hs : constructServiceForDataNode scheme dn = some svcs)
    (hd : constructStateFulSetForDataNode scheme dn = some desired)
    (cs : ClusterState)
    (hsvc : ∀ d ∈ svcs, specAt cs d.meta.name = some d.spec)
    (hwl : cs.workload.map (fun l => l.sts.spec) = some desired.spec) :
    Reconcile scheme dn [] cs = (cs, [], true) := by
  rcases constructService_cases scheme dn svcs hs with ⟨ref, -, hcase⟩
  have hfix : convergeServices cs svcs = (cs, []) := by
    rcases hcase with ⟨hsvcs, -⟩ | ⟨sd, -, -, hsvcs⟩ <;> subst hsvcs
    · have h1 := convergeService_fixed cs _
        (hsvc (stampService (headlessServiceBody dn) ref) (by simp))
      rw [convergeServices_single, h1]
    · have h1 := convergeService_fixed cs _
        (hsvc (stampService (headlessServiceBody dn) ref) (by simp))
      have h2 := convergeService_fixed cs _
        (hsvc (stampService (nodePortServiceBody dn sd) ref) (by simp))
      rw [convergeServices_pair, h1]
      simp only [h2]
      rfl
  have hfix2 : convergeWorkload scheme dn (4 + 1) [] cs = some (cs, [], true) :=
    convergeWorkload_fixed scheme dn desired hd 4 cs hwl
  have h5 : defaultRetrySteps = 4 + 1 := rfl
  simp only [Reconcile, hs, hfix, h5, hfix2]
  rfl

lemma runPasses_stay (scheme : Scheme) (dn : DataNode) (cs : ClusterState)
    (hfix : Reconcile scheme dn [] cs = (cs, [], true)) :
    ∀ m, runPasses scheme dn m cs = (cs, true) := by
  intro m
  induction m with
  | zero => rfl
  | succ m ih => simp [runPasses, hfix, ih]

lemma constructStateFulSet_shape (scheme : Scheme) (dn : DataNode) (sts : StatefulSet)
    (h : constructStateFulSetForDataNode scheme dn = some sts) :
    ∃ pvcT ref, constructPVCForDataNode scheme dn = some pvcT ∧
      setControllerReference dn scheme = some ref ∧
      sts = stampStatefulSet (stateFulSetBody dn pvcT) ref := by
  unfold constructStateFulSetForDataNode at h
  cases hp : constructPVCForDataNode scheme dn with
  | none => rw [hp] at h; simp at h
  | some pvcT =>
    rw [hp] at h
    simp only at h
    cases hr : setControllerReference dn scheme with
    | none => rw [hr] at h; simp at h
    | some ref =>
      rw [hr] at h
      simp only at h
      exact ⟨pvcT, ref, rfl, rfl, (Option.some.inj h).symm⟩

lemma constructPVC_shape (scheme : Scheme) (dn : DataNode) (pvc : PersistentVolumeClaim)
    (h : constructPVCForDataNode scheme dn = some pvc) :
    ∃ ref, setControllerReference dn scheme = some ref ∧
      pvc = stampPVC { meta := { name := DataNodeName, ns := dn.ns,
                                 labels := [("app", DataNodeName)] },
                       spec := dn.spec.volumeClaimTemplate } ref := by
  unfold constructPVCForDataNode at h
  cases hr : setControllerReference dn scheme with
  | none => rw [hr] at h; simp at h
  | some ref =>
    rw [hr] at h
    simp only at h
    exact ⟨ref, rfl, (Option.some.inj h).symm⟩

lemma setControllerReference_shape (dn : DataNode) (scheme : Scheme) (ref : OwnerRef)
    (h : setControllerReference dn scheme = some ref) :
    ref = { kind := "DataNode", name := dn.name, ns := dn.ns } := by
  unfold setControllerReference at h
  by_cases hr : scheme.registersDataNode
  · rw [if_pos hr] at h
    exact (Option.some.inj h).symm
  · rw [if_neg hr] at h
    simp at h

/-! The claims. -/

/-- Claim C1 amended: idempotence of a reconciliation pass holds up to
map iteration order — for every Specification and every live state
produced by N+1 prior successful interference-free passes over it
(including the state produced by a first pass from the empty live
state), the next pass performs zero create and zero update calls
against the cluster API and reports success (and leaves the state
unchanged), provided it iterates the Specification's env and
exposure-port maps in the same order as the prior passes (the same
stored representation `dn`).  A pass that observes a different
iteration order of a map with two or more entries can issue spurious
updates, because the source's `reflect.DeepEqual` comparisons are
order-sensitive — see `C1_counterexample`. -/
theorem C1_idempotence (scheme : Scheme) (dn : DataNode) (n : Nat) (cs : ClusterState)
    (h : runPasses scheme dn (n + 1) emptyCluster = (cs, true)) :
    Reconcile scheme dn [] cs = (cs, [], true) := by
  rcases hp : Reconcile scheme dn [] emptyCluster with ⟨cs1, calls1, ok1⟩
  have hrun : runPasses scheme dn (n + 1) emptyCluster =
      ((runPasses scheme dn n cs1).1, ok1 && (runPasses scheme dn n cs1).2) := by
    simp [runPasses, hp]
  rw [hrun] at h
  have hstate : (runPasses scheme dn n cs1).1 = cs := congrArg Prod.fst h
  have hflag : (ok1 && (runPasses scheme dn n cs1).2) = true := congrArg Prod.snd h
  rw [Bool.and_eq_true] at hflag
  obtain ⟨hok1, -⟩ := hflag
  cases hcs : constructServiceForDataNode scheme dn with
  | none =>
    exfalso
    have hbad : (emptyCluster, ([] : List ApiCall), false) = (cs1, calls1, ok1) := by
      rw [← hp]
      simp [Reconcile, hcs]
    have hok : false = ok1 := congrArg (fun p => p.2.2) hbad
    rw [← hok] at hok1
    exact Bool.false_ne_true hok1
  | some svcs =>
    have hreg := constructService_registers scheme dn svcs hcs
    obtain ⟨desired, hsts⟩ := constructStateFulSet_of_registers scheme dn hreg
    obtain ⟨cs2, calls, hrec, hsvcfacts, hwl⟩ :=
      Reconcile_establishes scheme dn svcs desired hcs hsts emptyCluster
    rw [hp] at hrec
    have hcs1 : cs1 = cs2 := congrArg Prod.fst hrec
    have hfix := Reconcile_converged scheme dn svcs desired hcs hsts cs2 hsvcfacts hwl
    have hstay := runPasses_stay scheme dn cs2 hfix n
    have hcs2 : cs2 = cs := by
      rw [hcs1, hstay] at hstate
      exact hstate
    rw [← hcs2]
    exact hfix

/-- Witness for C1 at a concrete DataNode: one pass from the empty
cluster succeeds, and the next pass is a zero-call success. -/
theorem C1_idempotence_witness :
    runPasses okScheme sampleDataNode (0 + 1) emptyCluster = (sampleConverged, true) ∧
    Reconcile okScheme sampleDataNode [] sampleConverged = (sampleConverged, [], true) := by
  refine ⟨rfl, C1_idempotence okScheme sampleDataNode 0 sampleConverged rfl⟩

/-- One Specification, observed in one iteration order: two user env
entries and two recognized exposure ports. -/
def permDnA : DataNode :=
  { name := "perm-datanode", ns := "iotdb-ns",
    spec :=
      { replicas := 3, image := "apache/iotdb:latest",
        limits := { cpu := "4000m", memory := "8Gi" },
        envs := some [("env_a", "1"), ("env_b", "2")],
        service := some { type := "NodePort",
                          ports := [("dn_rpc_port", 30001),
                                    ("rest_service_port", 30002)] },
        volumeClaimTemplate := samplePVCSpec } }

/-- The same Specification, observed with both maps iterated in the
opposite order. -/
def permDnB : DataNode :=
  { permDnA with
    spec :=
      { permDnA.spec with
        envs := some [("env_b", "2"), ("env_a", "1")],
        service := some { type := "NodePort",
                          ports := [("rest_service_port", 30002),
                                    ("dn_rpc_port", 30001)] } } }

lemma permDn_sameSpecification : SameSpecification permDnA permDnB :=
  ⟨rfl, rfl, rfl, rfl, rfl, rfl, List.Perm.swap _ _ _, rfl, List.Perm.swap _ _ _⟩

def permRef : OwnerRef :=
  { kind := "DataNode", name := "perm-datanode", ns := "iotdb-ns" }

def permStsA : StatefulSet :=
  (constructStateFulSetForDataNode okScheme permDnA).getD default

def permSvcsA : List Service :=
  (constructServiceForDataNode okScheme permDnA).getD []

/-- The live state after one successful pass over `permDnA` from the
empty cluster, written out: both services and the workload stored at
resource version 0 (the exposure service binding shadows at the list
head because it was created second). -/
def permConverged : ClusterState :=
  { services := [(DataNodeName, { svc := permSvcsA.getD 1 default, rv := 0 }),
                 (DataNodeName ++ "-headless",
                  { svc := permSvcsA.getD 0 default, rv := 0 })],
    workload := some { sts := permStsA, rv := 0 } }

def permStsB : StatefulSet :=
  (constructStateFulSetForDataNode okScheme permDnB).getD default

def permSvcsB : List Service :=
  (constructServiceForDataNode okScheme permDnB).getD []

def permExpSvcB : Service := permSvcsB.getD 1 default

set_option maxHeartbeats 1600000 in
set_option maxRecDepth 8192 in
/-- Counterexample to claim C1 as stated: from the live state produced
by one successful pass over the Specification, the next pass over the
very same Specification — merely observing the env and exposure-port
maps in a different (equally legal) iteration order — issues one
service update and one workload update instead of zero writes, because
the spec comparisons are order-sensitive. -/
theorem C1_counterexample :
    SameSpecification permDnA permDnB ∧
    runPasses okScheme permDnA 1 emptyCluster = (permConverged, true) ∧
    (Reconcile okScheme permDnB [] permConverged).2 =
      ([ApiCall.updateService permExpSvcB 0,
        ApiCall.updateWorkload permStsB 0], true) :=
  ⟨permDn_sameSpecification, by decide, by decide⟩

/-- Claim C9: if the owner's type is not registered with the scheme,
workload construction returns no usable object (`none`), and the
triggering pass fails without creating or updating anything — the
failure already aborts the pass at the service-construction step, before
any API call and before the conflict-retry loop is entered. -/
theorem C9_stamp_failure (scheme : Scheme) (dn : DataNode)
    (ws : List (Option StatefulSetSpec)) (cs : ClusterState)
    (h : scheme.registersDataNode = false) :
    constructStateFulSetForDataNode scheme dn = none ∧
    Reconcile scheme dn ws cs = (cs, [], false) := by
  have hset : setControllerReference dn scheme = none := by
    simp [setControllerReference, h]
  constructor
  · simp [constructStateFulSetForDataNode, constructPVCForDataNode, hset]
  · simp [Reconcile, constructServiceForDataNode, hset]

/-- Witness for C9 at a concrete scheme that does not register the
DataNode type. -/
theorem C9_stamp_failure_witness :
    constructStateFulSetForDataNode badScheme sampleDataNode = none ∧
    Reconcile badScheme sampleDataNode [] emptyCluster = (emptyCluster, [], false) :=
  C9_stamp_failure badScheme sampleDataNode [] emptyCluster rfl

lemma stateFulSet_containers_env (scheme : Scheme) (dn : DataNode) (sts : StatefulSet)
    (h : constructStateFulSetForDataNode scheme dn = some sts) :
    sts.spec.containers.map Container.env = [dataNodeEnvVars dn] := by
  obtain ⟨pvcT, ref, -, -, rfl⟩ := constructStateFulSet_shape scheme dn sts h
  rfl

/-- Counterexample to claim C5 as stated: two representations of the
same Specification — the env map iterated in two different legal orders
— build different container environment lists, so the list is not the
map's fixed insertion order followed by the injected entries; it is the
pass's observed iteration order. -/
theorem C5_counterexample :
    SameSpecification permDnA permDnB ∧
    permStsB.spec.containers.map Container.env =
      [userEnvVars permDnB ++ injectedEnvVars permDnB] ∧
    permStsB.spec.containers.map Container.env ≠
      [userEnvVars permDnA ++ injectedEnvVars permDnA] :=
  ⟨permDn_sameSpecification, rfl, by decide⟩

/-- Claim C5 amended: the built workload's container environment list is
the user map's entries in the (unspecified) iteration order the pass
observes — always some permutation of the map's entries — followed by
the three injected entries in fixed order (pod identity, seed/bootstrap
address, internal address); with no user mapping it is exactly the three
injected entries. -/
theorem C5_amended_env_composition (scheme : Scheme) (dn : DataNode) (sts : StatefulSet)
    (h : constructStateFulSetForDataNode scheme dn = some sts) :
    sts.spec.containers.map Container.env = [userEnvVars dn ++ injectedEnvVars dn] ∧
    (dn.spec.envs = none →
      sts.spec.containers.map Container.env = [injectedEnvVars dn]) ∧
    (∀ dn2, SameSpecification dn dn2 →
      (userEnvVars dn).Perm (userEnvVars dn2) ∧
      injectedEnvVars dn = injectedEnvVars dn2) := by
  have hm := stateFulSet_containers_env scheme dn sts h
  refine ⟨by rw [hm]; rfl, ?_, ?_⟩
  · intro hn
    rw [hm]
    simp [dataNodeEnvVars, userEnvVars, hn]
  · intro dn2 hsame
    obtain ⟨-, hns, -, -, -, -, henv, -⟩ := hsame
    constructor
    · unfold userEnvVars
      cases h1 : dn.spec.envs with
      | none =>
        cases h2 : dn2.spec.envs with
        | none => exact List.Perm.refl _
        | some l2 =>
          rw [h1, h2] at henv
          simp only at henv
      | some l1 =>
        cases h2 : dn2.spec.envs with
        | none =>
          rw [h1, h2] at henv
          simp only at henv
        | some l2 =>
          rw [h1, h2] at henv
          simp only at henv
          exact henv.map _
    · unfold injectedEnvVars seedConfigNodeVar internalAddressVar
      rw [hns]

/-- Witness for the amended C5 at a concrete DataNode whose environment
mapping is absent. -/
theorem C5_amended_env_composition_witness :
    (noEnvStatefulSet.spec.containers.map Container.env =
      [userEnvVars noEnvDataNode ++ injectedEnvVars noEnvDataNode]) ∧
    (noEnvDataNode.spec.envs = none →
      noEnvStatefulSet.spec.containers.map Container.env =
        [injectedEnvVars noEnvDataNode]) ∧
    (∀ dn2, SameSpecification noEnvDataNode dn2 →
      (userEnvVars noEnvDataNode).Perm (userEnvVars dn2) ∧
      injectedEnvVars noEnvDataNode = injectedEnvVars dn2) :=
  C5_amended_env_composition okScheme noEnvDataNode noEnvStatefulSet rfl

lemma canon_registry (p : String × Int) (hp : p ∈ portRegistry) (v : String) :
    canonEnvValue p.1 v = toString p.2 := by
  fin_cases hp <;> rfl

/-- Claim C2: port canonicalization — every applied environment entry
whose name is a Port Registry key carries the registry's canonical value
regardless of the user-supplied value, and every applied exposure-port
entry whose key is a Port Registry key carries the canonical value as
both service port and target port, with the user-supplied value
surviving only as the node port. -/
theorem C2_port_canonicalization (scheme : Scheme) (dn : DataNode) (sts : StatefulSet)
    (h : constructStateFulSetForDataNode scheme dn = some sts) :
    (∀ c ∈ sts.spec.containers, ∀ ev ∈ c.env, ∀ p ∈ portRegistry,
        ev.name = p.1 → ev.value = toString p.2) ∧
    (∀ kv sp, exposurePortEntry kv = some sp →
        sp.nodePort = kv.2 ∧ ∀ p ∈ portRegistry, kv.1 = p.1 →
          sp.port = p.2 ∧ sp.targetPort = p.2) := by
  constructor
  · obtain ⟨pvcT, ref, -, -, rfl⟩ := constructStateFulSet_shape scheme dn sts h
    intro c hc ev hev p hp hname
    simp only [stampStatefulSet, stateFulSetBody, List.mem_singleton] at hc
    subst hc
    simp only [dataNodeEnvVars, List.mem_append] at hev
    rcases hev with hev | hev
    · unfold userEnvVars at hev
      cases henvs : dn.spec.envs with
      | none => rw [henvs] at hev; simp at hev
      | some envs =>
        rw [henvs] at hev
        simp only [List.mem_map] at hev
        obtain ⟨kv, -, rfl⟩ := hev
        simp only at hname
        rw [hname] at *
        exact canon_registry p hp kv.2
    · simp only [injectedEnvVars, podNameVar, seedConfigNodeVar, internalAddressVar,
        List.mem_cons, List.not_mem_nil, or_false] at hev
      rcases hev with rfl | rfl | rfl <;>
        (simp only at hname) <;> fin_cases hp <;> exact absurd hname (by decide)
  · intro kv sp hsp
    unfold exposurePortEntry at hsp
    by_cases h1 : kv.1 = "dn_metric_prometheus_reporter_port"
    · rw [if_pos h1] at hsp
      obtain rfl := (Option.some.inj hsp).symm
      refine ⟨rfl, ?_⟩
      intro p hp hmatch
      rw [h1] at hmatch
      fin_cases hp <;> first
        | exact ⟨rfl, rfl⟩
        | exact absurd hmatch (by decide)
    · rw [if_neg h1] at hsp
      by_cases h2 : kv.1 = "rest_service_port"
      · rw [if_pos h2] at hsp
        obtain rfl := (Option.some.inj hsp).symm
        refine ⟨rfl, ?_⟩
        intro p hp hmatch
        rw [h2] at hmatch
        fin_cases hp <;> first
          | exact ⟨rfl, rfl⟩
          | exact absurd hmatch (by decide)
      · rw [if_neg h2] at hsp
        by_cases h3 : kv.1 = "dn_rpc_port"
        · rw [if_pos h3] at hsp
          obtain rfl := (Option.some.inj hsp).symm
          refine ⟨rfl, ?_⟩
          intro p hp hmatch
          rw [h3] at hmatch
          fin_cases hp <;> first
            | exact ⟨rfl, rfl⟩
            | exact absurd hmatch (by decide)
        · rw [if_neg h3] at hsp
          exact absurd hsp (by simp)

/-- Witness for C2 at a concrete DataNode that supplies both a
registry-keyed environment entry with a non-canonical value and a
registry-keyed exposure port. -/
theorem C2_port_canonicalization_witness :
    (∀ c ∈ sampleStatefulSet.spec.containers, ∀ ev ∈ c.env, ∀ p ∈ portRegistry,
        ev.name = p.1 → ev.value = toString p.2) ∧
    (∀ kv sp, exposurePortEntry kv = some sp →
        sp.nodePort = kv.2 ∧ ∀ p ∈ portRegistry, kv.1 = p.1 →
          sp.port = p.2 ∧ sp.targetPort = p.2) :=
  C2_port_canonicalization okScheme sampleDataNode sampleStatefulSet rfl

lemma constructService_names (scheme : Scheme) (dn : DataNode) (svcs : List Service)
    (h : constructServiceForDataNode scheme dn = some svcs) :
    (svcs.map (fun s => s.meta.name) = [DataNodeName ++ "-headless"] ∨
     svcs.map (fun s => s.meta.name) = [DataNodeName ++ "-headless", DataNodeName]) ∧
    ∀ s ∈ svcs, s.meta.ns = dn.ns := by
  rcases constructService_cases scheme dn svcs h with ⟨ref, -, hcase⟩
  rcases hcase with ⟨rfl, -⟩ | ⟨sd, -, -, rfl⟩
  · refine ⟨Or.inl rfl, ?_⟩
    intro s hs
    rw [List.mem_singleton.mp hs]
    rfl
  · refine ⟨Or.inr rfl, ?_⟩
    intro s hs
    rcases List.mem_cons.mp hs with rfl | hs2
    · rfl
    · rw [List.mem_singleton.mp hs2]
      rfl

/-- Claim C10: fixed-name invariant — the workload, exposure service and
storage claim are all named by the process-wide data-node constant, the
headless service by that constant plus the "-headless" suffix, with only
the namespace taken from the Specification; hence any two Specification
instances yield identically named derived objects. -/
theorem C10_fixed_names (scheme : Scheme) (dn : DataNode) (sts : StatefulSet)
    (svcs : List Service) (pvc : PersistentVolumeClaim)
    (hsts : constructStateFulSetForDataNode scheme dn = some sts)
    (hsvc : constructServiceForDataNode scheme dn = some svcs)
    (hpvc : constructPVCForDataNode scheme dn = some pvc) :
    (sts.meta.name = DataNodeName ∧ sts.meta.ns = dn.ns) ∧
    (pvc.meta.name = DataNodeName ∧ pvc.meta.ns = dn.ns) ∧
    (svcs.map (fun s => s.meta.name) = [DataNodeName ++ "-headless"] ∨
     svcs.map (fun s => s.meta.name) = [DataNodeName ++ "-headless", DataNodeName]) ∧
    (∀ s ∈ svcs, s.meta.ns = dn.ns) ∧
    (∀ dn2 sts2, constructStateFulSetForDataNode scheme dn2 = some sts2 →
      sts2.meta.name = sts.meta.name) ∧
    (∀ dn2 pvc2, constructPVCForDataNode scheme dn2 = some pvc2 →
      pvc2.meta.name = pvc.meta.name) := by
  have hstsname : sts.meta.name = DataNodeName ∧ sts.meta.ns = dn.ns := by
    obtain ⟨pvcT, ref, -, -, rfl⟩ := constructStateFulSet_shape scheme dn sts hsts
    exact ⟨rfl, rfl⟩
  have hpvcname : pvc.meta.name = DataNodeName ∧ pvc.meta.ns = dn.ns := by
    obtain ⟨ref, -, rfl⟩ := constructPVC_shape scheme dn pvc hpvc
    exact ⟨rfl, rfl⟩
  obtain ⟨hnames, hns⟩ := constructService_names scheme dn svcs hsvc
  refine ⟨hstsname, hpvcname, hnames, hns, ?_, ?_⟩
  · intro dn2 sts2 h2
    obtain ⟨pvcT2, ref2, -, -, rfl⟩ := constructStateFulSet_shape scheme dn2 sts2 h2
    rw [hstsname.1]
    rfl
  · intro dn2 pvc2 h2
    obtain ⟨ref2, -, rfl⟩ := constructPVC_shape scheme dn2 pvc2 h2
    rw [hpvcname.1]
    rfl

/-- Witness for C10 at two concrete DataNodes with different instance
names. -/
theorem C10_fixed_names_witness :
    ((sampleStatefulSet.meta.name = DataNodeName ∧
      sampleStatefulSet.meta.ns = sampleDataNode.ns) ∧
     (((constructPVCForDataNode okScheme sampleDataNode).getD default).meta.name =
        DataNodeName ∧
      ((constructPVCForDataNode okScheme sampleDataNode).getD default).meta.ns =
        sampleDataNode.ns) ∧
     (sampleServices.map (fun s => s.meta.name) = [DataNodeName ++ "-headless"] ∨
      sampleServices.map (fun s => s.meta.name) =
        [DataNodeName ++ "-headless", DataNodeName]) ∧
     (∀ s ∈ sampleServices, s.meta.ns = sampleDataNode.ns) ∧
     (∀ dn2 sts2, constructStateFulSetForDataNode okScheme dn2 = some sts2 →
        sts2.meta.name = sampleStatefulSet.meta.name) ∧
     (∀ dn2 pvc2, constructPVCForDataNode okScheme dn2 = some pvc2 →
        pvc2.meta.name =
          ((constructPVCForDataNode okScheme sampleDataNode).getD default).meta.name)) :=
  C10_fixed_names okScheme sampleDataNode sampleStatefulSet sampleServices
    ((constructPVCForDataNode okScheme sampleDataNode).getD default) rfl rfl rfl

/-- A DataNode whose exposure descriptor names only `dn_internal_port`:
a Port Registry key that the exposure-port loop does not recognize. -/
def c3DataNode : DataNode :=
  { sampleDataNode with
    spec := { sampleDataNode.spec with
              service := some { type := "NodePort",
                                ports := [("dn_internal_port", 30001)] } } }

/-- Counterexample to claim C3 as stated: `dn_internal_port` is a Port
Registry key and is named by the exposure descriptor, yet only the
headless service is returned — the builder recognizes just three of the
seven registry keys for exposure. -/
theorem C3_counterexample :
    registryPort "dn_internal_port" = some 10730 ∧
    c3DataNode.spec.service.isSome = true ∧
    (constructServiceForDataNode okScheme c3DataNode).map List.length = some 1 := by
  refine ⟨rfl, rfl, rfl⟩

lemma exposurePortEntry_isSome (kv : String × Int) :
    (exposurePortEntry kv).isSome = true ↔
      (kv.1 = "dn_metric_prometheus_reporter_port" ∨ kv.1 = "rest_service_port" ∨
       kv.1 = "dn_rpc_port") := by
  unfold exposurePortEntry
  by_cases h1 : kv.1 = "dn_metric_prometheus_reporter_port"
  · simp [h1]
  · by_cases h2 : kv.1 = "rest_service_port"
    · simp [h1, h2]
    · by_cases h3 : kv.1 = "dn_rpc_port"
      · simp [h1, h2, h3]
      · simp [h1, h2, h3]

/-- Claim C3 amended: buildServices always returns the headless
discovery service first; a second (exposure) service is returned iff the
exposure descriptor is present and names at least one of the three
exposable keys `dn_metric_prometheus_reporter_port`, `rest_service_port`,
`dn_rpc_port` — all other entries, including the remaining four Port
Registry keys, are silently dropped. -/
theorem C3_amended_second_service (scheme : Scheme) (dn : DataNode)
    (svcs : List Service)
    (h : constructServiceForDataNode scheme dn = some svcs) :
    (svcs.map (fun s => s.meta.name)).headD "" = DataNodeName ++ "-headless" ∧
    (∀ kv : String × Int, (exposurePortEntry kv).isSome = true ↔
      (kv.1 = "dn_metric_prometheus_reporter_port" ∨ kv.1 = "rest_service_port" ∨
       kv.1 = "dn_rpc_port")) ∧
    (svcs.length = 2 ↔ ∃ sd, dn.spec.service = some sd ∧
      ∃ kv ∈ sd.ports, (exposurePortEntry kv).isSome = true) := by
  rcases constructService_cases scheme dn svcs h with ⟨ref, -, hcase⟩
  rcases hcase with ⟨rfl, hnone⟩ | ⟨sd, hsd, hne, rfl⟩
  · refine ⟨rfl, exposurePortEntry_isSome, ?_, ?_⟩
    · intro h2
      simp at h2
    · rintro ⟨sd, hsd, kv, hkv, hsome⟩
      have h0 := (List.filterMap_eq_nil_iff.mp (hnone sd hsd)) kv hkv
      rw [h0] at hsome
      exact absurd hsome (by decide)
  · refine ⟨rfl, exposurePortEntry_isSome, ?_, ?_⟩
    · intro _
      refine ⟨sd, hsd, ?_⟩
      by_contra hall
      push_neg at hall
      refine hne (List.filterMap_eq_nil_iff.mpr ?_)
      intro kv hkv
      have hks := hall kv hkv
      rw [← Option.not_isSome_iff_eq_none]
      intro hs
      exact hks hs
    · intro _
      rfl

/-- Witness for the amended C3 at a concrete DataNode whose exposure
descriptor names `dn_rpc_port`. -/
theorem C3_amended_second_service_witness :
    ((sampleServices.map (fun s => s.meta.name)).headD "" =
      DataNodeName ++ "-headless") ∧
    (∀ kv : String × Int, (exposurePortEntry kv).isSome = true ↔
      (kv.1 = "dn_metric_prometheus_reporter_port" ∨ kv.1 = "rest_service_port" ∨
       kv.1 = "dn_rpc_port")) ∧
    (sampleServices.length = 2 ↔ ∃ sd, sampleDataNode.spec.service = some sd ∧
      ∃ kv ∈ sd.ports, (exposurePortEntry kv).isSome = true) :=
  C3_amended_second_service okScheme sampleDataNode sampleServices rfl

/-- Claim C4, evaluated: the headless service has exactly seven port
entries, but its `dn-mpp-data-exchange-port` entry carries service port
10740 targeting container port 10750 — not the canonical 10740 the spec
states; the canonical registry value for that key is 10740, and the
container itself exposes 10740, so the 10750 target is a slip in the
source. -/
theorem C4_mpp_exchange_target_bug :
    (((constructServiceForDataNode okScheme sampleDataNode).getD
        []).headD default).spec.ports.length = 7 ∧
    (((constructServiceForDataNode okScheme sampleDataNode).getD
        []).headD default).spec.ports.get? 1 =
      some { name := "dn-mpp-data-exchange-port", port := 10740, nodePort := 0,
             targetPort := 10750 } ∧
    registryPort "dn_mpp_data_exchange_port" = some 10740 ∧
    dataNodeContainerPorts.get? 2 =
      some { name := "exchange-port", containerPort := 10740 } ∧
    canonEnvValue "dn_mpp_data_exchange_port" "x" = "10740" := by
  refine ⟨rfl, rfl, rfl, rfl, rfl⟩

def c6Desired : Service := sampleServices.headD default

def c6LiveSpec : ServiceSpec := { c6Desired.spec with clusterIP := "" }

def c6Live : LiveService := { svc := { c6Desired with spec := c6LiveSpec }, rv := 7 }

def c6State : ClusterState :=
  { services := [(c6Desired.meta.name, c6Live)], workload := none }

/-- Counterexample to claim C6 as stated: a live service whose port
list, selector and type all equal the desired ones (only the
cluster-assigned `clusterIP` differs) still receives an update, because
the source compares the whole `Spec` with `reflect.DeepEqual`. -/
theorem C6_counterexample :
    c6LiveSpec.ports = c6Desired.spec.ports ∧
    c6LiveSpec.selector = c6Desired.spec.selector ∧
    c6LiveSpec.type = c6Desired.spec.type ∧
    (convergeService c6State c6Desired).2 = [ApiCall.updateService c6Desired 7] := by
  refine ⟨rfl, rfl, rfl, ?_⟩
  rfl

/-- Claim C6 amended: when the desired service exists live, the engine
compares the live object's entire spec field (ports, selector, type and
also the cluster-assigned clusterIP) — not its full persisted state, but
more than the three mutable fields — and issues exactly one update iff
any spec field differs, carrying forward the live object's resource
version on the update. -/
theorem C6_amended_spec_diff (cs : ClusterState) (d : Service) (ex : LiveService)
    (h : lookupService cs d.meta.name = some ex) :
    ((convergeService cs d).2 = [] ↔ ex.svc.spec = d.spec) ∧
    (∀ c ∈ (convergeService cs d).2, c = ApiCall.updateService d ex.rv) ∧
    ((convergeService cs d).1 = if ex.svc.spec = d.spec then cs
      else putService cs { svc := d, rv := ex.rv + 1 }) := by
  unfold convergeService
  rw [h]
  by_cases hs : ex.svc.spec = d.spec
  · simp [hs]
  · simp [hs]

/-- Witness for the amended C6 at the concrete diverging live service. -/
theorem C6_amended_spec_diff_witness :
    ((convergeService c6State c6Desired).2 = [] ↔ c6Live.svc.spec = c6Desired.spec) ∧
    (∀ c ∈ (convergeService c6State c6Desired).2,
      c = ApiCall.updateService c6Desired c6Live.rv) ∧
    ((convergeService c6State c6Desired).1 =
      if c6Live.svc.spec = c6Desired.spec then c6State
      else putService c6State { svc := c6Desired, rv := c6Live.rv + 1 }) :=
  C6_amended_spec_diff c6State c6Desired c6Live rfl

lemma workloadAttempt_conflict_of (scheme : Scheme) (dn : DataNode)
    (desired : StatefulSet) (cs : ClusterState) (current : LiveStatefulSet)
    (wspec : StatefulSetSpec)
    (hd : constructStateFulSetForDataNode scheme dn = some desired)
    (hw : cs.workload = some current)
    (hne : current.sts.spec ≠ desired.spec) :
    workloadAttempt scheme dn cs (some wspec) =
      AttemptResult.conflict
        { cs with workload := some { sts := { current.sts with spec := wspec },
                                     rv := current.rv + 1 } }
        [ApiCall.updateWorkload desired current.rv] := by
  simp only [workloadAttempt, hd, hw, interfere, if_neg hne,
    if_neg (Nat.succ_ne_self current.rv)]

lemma workloadAttempt_update_of (scheme : Scheme) (dn : DataNode)
    (desired : StatefulSet) (cs : ClusterState) (current : LiveStatefulSet)
    (hd : constructStateFulSetForDataNode scheme dn = some desired)
    (hw : cs.workload = some current)
    (hne : current.sts.spec ≠ desired.spec) :
    workloadAttempt scheme dn cs none =
      AttemptResult.ok
        { cs with workload := some { sts := desired, rv := current.rv + 1 } }
        [ApiCall.updateWorkload desired current.rv] := by
  simp only [workloadAttempt, hd, hw, interfere, if_neg hne, eq_self_iff_true, if_true]

lemma convergeWorkload_retry_succeeds (scheme : Scheme) (dn : DataNode)
    (desired : StatefulSet) (current : LiveStatefulSet) (cs : ClusterState)
    (w : StatefulSetSpec) (b : Nat)
    (hd : constructStateFulSetForDataNode scheme dn = some desired)
    (hw : cs.workload = some current)
    (hne1 : current.sts.spec ≠ desired.spec)
    (hne2 : w ≠ desired.spec) :
    convergeWorkload scheme dn (b + 1 + 1) [some w] cs =
      some ({ cs with workload := some { sts := desired, rv := current.rv + 1 + 1 } },
        [ApiCall.updateWorkload desired current.rv,
         ApiCall.updateWorkload desired (current.rv + 1)], true) := by
  have ha1 := workloadAttempt_conflict_of scheme dn desired cs current w hd hw hne1
  have hne2' : ({ sts := { current.sts with spec := w }, rv := current.rv + 1 } :
      LiveStatefulSet).sts.spec ≠ desired.spec := hne2
  have ha2 := workloadAttempt_update_of scheme dn desired
    { cs with workload := some { sts := { current.sts with spec := w },
                                 rv := current.rv + 1 } }
    { sts := { current.sts with spec := w }, rv := current.rv + 1 }
    hd rfl hne2'
  simp only [convergeWorkload, List.headD, List.tail, ha1, ha2]
  rfl

lemma convergeWorkload_conflicts_exhaust (scheme : Scheme) (dn : DataNode)
    (desired : StatefulSet) (w : StatefulSetSpec)
    (hd : constructStateFulSetForDataNode scheme dn = some desired)
    (hne2 : w ≠ desired.spec) :
    ∀ b cs current, cs.workload = some current →
      current.sts.spec ≠ desired.spec →
      ∃ cs2 calls, convergeWorkload scheme dn b (List.replicate b (some w)) cs =
        some (cs2, calls, false) ∧ calls.length = b := by
  intro b
  induction b with
  | zero =>
    intro cs current hw hne
    exact ⟨cs, [], rfl, rfl⟩
  | succ b ih =>
    intro cs current hw hne
    have ha := workloadAttempt_conflict_of scheme dn desired cs current w hd hw hne
    obtain ⟨cs2, calls, hrec, hlen⟩ := ih
      { cs with workload := some { sts := { current.sts with spec := w },
                                   rv := current.rv + 1 } }
      { sts := { current.sts with spec := w }, rv := current.rv + 1 }
      rfl hne2
    refine ⟨cs2, ApiCall.updateWorkload desired current.rv :: calls, ?_, by simp [hlen]⟩
    simp only [List.replicate, convergeWorkload, List.headD, List.tail, ha, hrec]
    rfl

/-- Claim C7 amended: on a Conflict the engine re-runs the whole
fetch-compare-update sequence with the freshly fetched token and, when
no further conflict occurs, the retried update succeeds — but it
replaces the entire workload spec with the engine-derived one, also
overwriting the interleaved writer's changes to fields the engine does
not derive from the Specification; under persistent conflicts the
bounded budget (five attempts) is exhausted and the error surfaced. -/
theorem C7_amended_conflict_retry (scheme : Scheme) (dn : DataNode)
    (desired : StatefulSet) (current : LiveStatefulSet) (cs : ClusterState)
    (w : StatefulSetSpec)
    (hd : constructStateFulSetForDataNode scheme dn = some desired)
    (hw : cs.workload = some current)
    (hne1 : current.sts.spec ≠ desired.spec)
    (hne2 : w ≠ desired.spec) :
    (convergeWorkload scheme dn defaultRetrySteps [some w] cs =
      some ({ cs with workload := some { sts := desired, rv := current.rv + 1 + 1 } },
        [ApiCall.updateWorkload desired current.rv,
         ApiCall.updateWorkload desired (current.rv + 1)], true)) ∧
    (∃ cs2 calls,
      convergeWorkload scheme dn defaultRetrySteps
        (List.replicate defaultRetrySteps (some w)) cs =
        some (cs2, calls, false) ∧ calls.length = defaultRetrySteps) := by
  constructor
  · have h5 : defaultRetrySteps = 3 + 1 + 1 := rfl
    rw [h5]
    have hstep := convergeWorkload_retry_succeeds scheme dn desired current cs w 3
      hd hw hne1 hne2
    -- the retry loop succeeds on the second attempt, so any remaining
    -- budget beyond two is irrelevant; re-derive at the 3+1+1 shape
    exact hstep
  · exact convergeWorkload_conflicts_exhaust scheme dn desired w hd hne2
      defaultRetrySteps cs current hw hne1

def c7Desired : StatefulSet := sampleStatefulSet

def c7LiveSts : StatefulSet :=
  { c7Desired with spec := { c7Desired.spec with replicas := 1 } }

/-- The interleaved concurrent write: the engine-derived spec except for
`podManagementPolicy`, a field the engine does not derive from the
Specification. -/
def c7Concurrent : StatefulSetSpec :=
  { c7Desired.spec with podManagementPolicy := "Parallel" }

def c7State : ClusterState :=
  { services := [], workload := some { sts := c7LiveSts, rv := 10 } }

def c7Final : ClusterState :=
  { c7State with workload := some { sts := c7Desired, rv := 12 } }

/-- Counterexample to claim C7 as stated: a successful retried update
overwrites the interleaved concurrent write's `podManagementPolicy`
(a field the engine does not derive from the Specification) back to the
engine's zero value. -/
theorem C7_counterexample :
    c7Concurrent.podManagementPolicy = "Parallel" ∧
    c7Desired.spec.podManagementPolicy = "" ∧
    convergeWorkload okScheme sampleDataNode defaultRetrySteps
        [some c7Concurrent] c7State =
      some (c7Final, [ApiCall.updateWorkload c7Desired 10,
                      ApiCall.updateWorkload c7Desired 11], true) ∧
    c7Final.workload.map (fun l => l.sts.spec.podManagementPolicy) = some "" := by
  refine ⟨rfl, rfl, ?_, rfl⟩
  have h := convergeWorkload_retry_succeeds okScheme sampleDataNode c7Desired
    { sts := c7LiveSts, rv := 10 } c7State c7Concurrent 3 rfl rfl
    (by decide) (by decide)
  exact h

/-- Witness for the amended C7 at the concrete conflict scenario. -/
theorem C7_amended_conflict_retry_witness :
    ((convergeWorkload okScheme sampleDataNode defaultRetrySteps
        [some c7Concurrent] c7State =
      some (c7Final,
        [ApiCall.updateWorkload c7Desired 10,
         ApiCall.updateWorkload c7Desired 11], true)) ∧
     (∃ cs2 calls,
       convergeWorkload okScheme sampleDataNode defaultRetrySteps
         (List.replicate defaultRetrySteps (some c7Concurrent)) c7State =
         some (cs2, calls, false) ∧ calls.length = defaultRetrySteps)) :=
  C7_amended_conflict_retry okScheme sampleDataNode c7Desired
    { sts := c7LiveSts, rv := 10 } c7State c7Concurrent rfl rfl
    (by decide) (by decide)

def ownsRef (dn : DataNode) : OwnerRef :=
  { kind := "DataNode", name := dn.name, ns := dn.ns }

/-- The object submitted by an API call carries an owner reference back
to the DataNode; for the workload the embedded storage-claim template is
stamped as well. -/
def callOwnedBy (dn : DataNode) : ApiCall → Prop
  | ApiCall.createService s => s.meta.ownerRefs = [ownsRef dn]
  | ApiCall.updateService s _ => s.meta.ownerRefs = [ownsRef dn]
  | ApiCall.createWorkload s => s.meta.ownerRefs = [ownsRef dn] ∧
      ∀ pvc ∈ s.spec.volumeClaimTemplates, pvc.meta.ownerRefs = [ownsRef dn]
  | ApiCall.updateWorkload s _ => s.meta.ownerRefs = [ownsRef dn] ∧
      ∀ pvc ∈ s.spec.volumeClaimTemplates, pvc.meta.ownerRefs = [ownsRef dn]

lemma constructService_owned (scheme : Scheme) (dn : DataNode) (svcs : List Service)
    (h : constructServiceForDataNode scheme dn = some svcs) :
    ∀ s ∈ svcs, s.meta.ownerRefs = [ownsRef dn] := by
  rcases constructService_cases scheme dn svcs h with ⟨ref, href, hcase⟩
  have hr := setControllerReference_shape dn scheme ref href
  subst hr
  rcases hcase with ⟨rfl, -⟩ | ⟨sd, -, -, rfl⟩
  · intro s hs
    rw [List.mem_singleton.mp hs]
    rfl
  · intro s hs
    rcases List.mem_cons.mp hs with rfl | hs2
    · rfl
    · rw [List.mem_singleton.mp hs2]
      rfl

lemma constructStateFulSet_owned (scheme : Scheme) (dn : DataNode) (sts : StatefulSet)
    (h : constructStateFulSetForDataNode scheme dn = some sts) :
    sts.meta.ownerRefs = [ownsRef dn] ∧
    ∀ pvc ∈ sts.spec.volumeClaimTemplates, pvc.meta.ownerRefs = [ownsRef dn] := by
  obtain ⟨pvcT, ref, hpvc, href, rfl⟩ := constructStateFulSet_shape scheme dn sts h
  have hr := setControllerReference_shape dn scheme ref href
  subst hr
  refine ⟨rfl, ?_⟩
  intro pvc hpv
  obtain ⟨ref2, href2, rfl⟩ := constructPVC_shape scheme dn pvcT hpvc
  have hr2 := setControllerReference_shape dn scheme ref2 href2
  subst hr2
  simp only [stampStatefulSet, stateFulSetBody, List.mem_singleton] at hpv
  rw [hpv]
  rfl

/-- Claim C8: every object a pass submits to the cluster API — headless
service, exposure service, workload, and the storage-claim template
embedded in the workload — carries an owner reference back to the
DataNode, stamped before submission. -/
theorem C8_ownership (scheme : Scheme) (dn : DataNode)
    (ws : List (Option StatefulSetSpec)) (cs cs2 : ClusterState)
    (calls : List ApiCall) (flag : Bool)
    (h : Reconcile scheme dn ws cs = (cs2, calls, flag)) :
    ∀ c ∈ calls, callOwnedBy dn c := by
  cases hcs : constructServiceForDataNode scheme dn with
  | none =>
    have hres : (cs, ([] : List ApiCall), false) = (cs2, calls, flag) := by
      rw [← h]
      simp [Reconcile, hcs]
    have hcalls : ([] : List ApiCall) = calls := congrArg (fun p => p.2.1) hres
    rw [← hcalls]
    intro c hc
    simp at hc
  | some svcs =>
    have hreg := constructService_registers scheme dn svcs hcs
    obtain ⟨desired, hsts⟩ := constructStateFulSet_of_registers scheme dn hreg
    have hsvcowned := constructService_owned scheme dn svcs hcs
    obtain ⟨howned, hpvcowned⟩ := constructStateFulSet_owned scheme dn desired hsts
    have hsvccall : ∀ c ∈ (convergeServices cs svcs).2, callOwnedBy dn c := by
      intro c hc
      obtain ⟨d, hd2, hshape⟩ := convergeServices_calls svcs cs c hc
      rcases hshape with rfl | ⟨n, rfl⟩
      · exact hsvcowned d hd2
      · exact hsvcowned d hd2
    have hwlcall : ∀ c, (c = ApiCall.createWorkload desired ∨
        ∃ n, c = ApiCall.updateWorkload desired n) → callOwnedBy dn c := by
      intro c hshape
      rcases hshape with rfl | ⟨n, rfl⟩
      · exact ⟨howned, hpvcowned⟩
      · exact ⟨howned, hpvcowned⟩
    cases hcw : convergeWorkload scheme dn defaultRetrySteps ws
        (convergeServices cs svcs).1 with
    | none =>
      have hres : ((convergeServices cs svcs).1, (convergeServices cs svcs).2, false) =
          (cs2, calls, flag) := by
        rw [← h]
        simp [Reconcile, hcs, hcw]
      have hcalls : (convergeServices cs svcs).2 = calls :=
        congrArg (fun p => p.2.1) hres
      rw [← hcalls]
      exact hsvccall
    | some res =>
      rcases res with ⟨cs3, calls3, flag3⟩
      have hres : (cs3, (convergeServices cs svcs).2 ++ calls3, flag3) =
          (cs2, calls, flag) := by
        rw [← h]
        simp [Reconcile, hcs, hcw]
      have hcalls : (convergeServices cs svcs).2 ++ calls3 = calls :=
        congrArg (fun p => p.2.1) hres
      rw [← hcalls]
      intro c hc
      rcases List.mem_append.mp hc with hc1 | hc2
      · exact hsvccall c hc1
      · exact hwlcall c (convergeWorkload_calls scheme dn desired hsts
          defaultRetrySteps ws (convergeServices cs svcs).1 cs3 calls3 flag3 hcw c hc2)

/-- Witness for C8: a concrete first pass emits three calls (two
service creates and the workload create), and every one is stamped. -/
theorem C8_ownership_witness :
    (Reconcile okScheme sampleDataNode [] emptyCluster).2.1.length = 3 ∧
    ∀ c ∈ (Reconcile okScheme sampleDataNode [] emptyCluster).2.1,
      callOwnedBy sampleDataNode c :=
  ⟨rfl,
   C8_ownership okScheme sampleDataNode [] emptyCluster
     (Reconcile okScheme sampleDataNode [] emptyCluster).1
     (Reconcile okScheme sampleDataNode [] emptyCluster).2.1
     (Reconcile okScheme sampleDataNode [] emptyCluster).2.2 rfl⟩

end IoTDBOperator
